import Mathlib

/-!
Verification of the DLMS/COSEM meter-reader client (banuch/dlms_meter_reader).

This file gives a shallow embedding of the C++ sources in Lean 4 and proves
properties of the embedded functions.  Machine integers are modelled as `Nat`
(resp. `Int` for signed quantities) with explicit truncation where the C code
truncates; byte buffers are `List Nat` whose elements are below 256 (stated as
a hypothesis where a theorem needs it, since the C type `uint8_t*` guarantees
it); the meter's serial line is an oracle: each call of `receiveFrame` inside
a transaction consumes one entry of a list of `Option (List Nat)` (`none` is a
receive timeout, `some buf` a frame delivered into `receiveBuffer`).  `float`
values are modelled as exact rationals `ℚ`.
-/

namespace DLMS

/-! ### CRC engine — `src/utils/CRCCalculator.cpp`

`calculate` runs CRC-16/X.25: reversed polynomial `0x8408`, initial register
`0xFFFF`, final bitwise complement (`crc = ~crc` on a `uint16_t`, i.e. XOR
with `0xFFFF`).  The static members `crcMSB`/`crcLSB` set at the end of
`calculate` are modelled as functions of the data of the last call:
`crcMSB = crc & 0xFF` (low byte) and `crcLSB = (crc >> 8) & 0xFF` (high byte),
exactly as lines 37-38 of the source store them. -/

def POLYNOMIAL : Nat := 0x8408

def INITIAL_VALUE : Nat := 0xFFFF

/-- One iteration of the inner bit loop of `CRCCalculator::calculate`. -/
def crcBit (crc : Nat) : Nat :=
  if crc &&& 0x0001 == 1 then (crc >>> 1) ^^^ POLYNOMIAL else crc >>> 1

/-- One iteration of the outer byte loop: `crc ^= data[i]` then eight bit
rounds. -/
def crcUpdate (crc b : Nat) : Nat := crcBit^[8] (crc ^^^ b)

/-- `CRCCalculator::calculate(data, length)`: the returned `uint16_t` CRC,
including the final XOR. -/
def calculate (data : List Nat) : Nat :=
  (data.foldl crcUpdate INITIAL_VALUE) ^^^ 0xFFFF

/-- `CRCCalculator::getMSB()` after `calculate` ran on `data`: the source
stores the LOW byte of the crc in `crcMSB` ("Low byte goes to MSB position"). -/
def getMSB (data : List Nat) : Nat := calculate data &&& 0xFF

/-- `CRCCalculator::getLSB()` after `calculate` ran on `data`: the source
stores the HIGH byte of the crc in `crcLSB`. -/
def getLSB (data : List Nat) : Nat := (calculate data >>> 8) &&& 0xFF

/-- `CRCCalculator::verify(data, length)`: recompute over all but the last two
bytes and compare with `(data[length-1] << 8) | data[length-2]`. -/
def verify (data : List Nat) : Bool :=
  if data.length < 2 then false
  else
    calculate (data.take (data.length - 2)) ==
      ((data.getD (data.length - 1) 0) <<< 8) ||| data.getD (data.length - 2) 0

lemma crcBit_lt (c : Nat) (h : c < 2 ^ 16) : crcBit c < 2 ^ 16 := by
  unfold crcBit
  split
  · exact Nat.xor_lt_two_pow (by omega : c >>> 1 < 2 ^ 16) (by norm_num [POLYNOMIAL])
  · omega

lemma crcBit_iter_lt (n c : Nat) (h : c < 2 ^ 16) : crcBit^[n] c < 2 ^ 16 := by
  induction n generalizing c with
  | zero => simpa using h
  | succ k ih =>
    rw [Function.iterate_succ_apply]
    exact ih _ (crcBit_lt c h)

lemma crcUpdate_lt (c b : Nat) (hc : c < 2 ^ 16) (hb : b < 2 ^ 16) :
    crcUpdate c b < 2 ^ 16 :=
  crcBit_iter_lt 8 _ (Nat.xor_lt_two_pow hc hb)

lemma foldl_crcUpdate_lt (data : List Nat) :
    ∀ c, c < 2 ^ 16 → (∀ b ∈ data, b < 2 ^ 16) → data.foldl crcUpdate c < 2 ^ 16 := by
  induction data with
  | nil => intro c hc _; simpa using hc
  | cons x xs ih =>
    intro c hc hmem
    rw [List.foldl_cons]
    exact ih _ (crcUpdate_lt c x hc (hmem x (by simp))) fun b hb => hmem b (by simp [hb])

lemma calculate_lt (data : List Nat) (h : ∀ b ∈ data, b < 256) :
    calculate data < 2 ^ 16 := by
  unfold calculate
  refine Nat.xor_lt_two_pow ?_ (by norm_num)
  exact foldl_crcUpdate_lt data INITIAL_VALUE (by norm_num [INITIAL_VALUE])
    fun b hb => lt_of_lt_of_le (h b hb) (by norm_num)

lemma mul256_lor (a b : Nat) (hb : b < 256) : (a * 256) ||| b = a * 256 + b := by
  have hb' : b < 2 ^ 8 := by omega
  apply Nat.eq_of_testBit_eq
  intro j
  have h256 : (256 : Nat) = 2 ^ 8 := by norm_num
  rw [Nat.testBit_lor, h256, mul_comm a, Nat.testBit_mul_pow_two_add a hb' j]
  by_cases hj : j < 8
  · rw [if_pos hj, mul_comm ((2 : Nat) ^ 8) a, ← Nat.shiftLeft_eq, Nat.testBit_shiftLeft]
    simp [Nat.not_le.mpr hj]
  · rw [if_neg hj, mul_comm ((2 : Nat) ^ 8) a, ← Nat.shiftLeft_eq, Nat.testBit_shiftLeft]
    have hbj : b.testBit j = false :=
      Nat.testBit_lt_two_pow
        (lt_of_lt_of_le hb' (Nat.pow_le_pow_right (by norm_num) (Nat.le_of_not_lt hj)))
    simp [Nat.le_of_not_lt hj, hbj]

/-- Reassembling the low byte and the high byte of a 16-bit value in the wire
order checked by `verify` gives the value back. -/
lemma byte_recombine (c : Nat) (h : c < 2 ^ 16) :
    (((c >>> 8) &&& 255) <<< 8) ||| (c &&& 255) = c := by
  have h8 : c >>> 8 = c / 256 := by
    rw [Nat.shiftRight_eq_div_pow]
  have hdiv : c / 256 < 256 := by omega
  have hand1 : c / 256 &&& 255 = c / 256 % 256 := Nat.and_pow_two_sub_one_eq_mod _ 8
  have h1 : (c >>> 8) &&& 255 = c / 256 := by
    rw [h8, hand1]; omega
  have h2 : c &&& 255 = c % 256 := Nat.and_pow_two_sub_one_eq_mod c 8
  rw [h1, h2, Nat.shiftLeft_eq]
  have h256 : (2 : Nat) ^ 8 = 256 := by norm_num
  rw [h256, mul256_lor (c / 256) (c % 256) (Nat.mod_lt c (by norm_num))]
  omega

/-- Appending the two CRC bytes in the order `getMSB` then `getLSB` yields a
buffer that `verify` accepts. -/
lemma verify_append_crc (data : List Nat) (h : ∀ b ∈ data, b < 256) :
    verify (data ++ [getMSB data, getLSB data]) = true := by
  unfold verify
  have hlen : (data ++ [getMSB data, getLSB data]).length = data.length + 2 := by simp
  rw [hlen]
  have h2 : data.length + 2 - 2 = data.length := by omega
  have h1 : data.length + 2 - 1 = data.length + 1 := by omega
  rw [h1, h2]
  rw [if_neg (by omega)]
  have htake : (data ++ [getMSB data, getLSB data]).take data.length = data :=
    List.take_left data [getMSB data, getLSB data]
  have hg1 : (data ++ [getMSB data, getLSB data]).getD (data.length + 1) 0 = getLSB data := by
    rw [List.getD_append_right _ _ 0 _ (by omega)]
    simp
  have hg0 : (data ++ [getMSB data, getLSB data]).getD data.length 0 = getMSB data := by
    rw [List.getD_append_right _ _ 0 _ (by omega)]
    simp
  rw [htake, hg1, hg0]
  unfold getMSB getLSB
  rw [byte_recombine (calculate data) (calculate_lt data h)]
  simp

/-- C10: after `CRCCalculator::calculate(data, length)` returns `crc`,
`getMSB()` returns the low-order byte `crc % 256` and `getLSB()` the
high-order byte `crc / 256` (the accessor names are swapped relative to bit
significance), so emitting `getMSB()` followed by `getLSB()` places the CRC in
little-endian wire order — exactly the trailing-pair order accepted by
`verify()`. -/
theorem crc_emission_little_endian (data : List Nat) (h : ∀ b ∈ data, b < 256) :
    getMSB data = calculate data % 256 ∧
    getLSB data = calculate data / 256 ∧
    verify (data ++ [getMSB data, getLSB data]) = true := by
  have hlt := calculate_lt data h
  refine ⟨Nat.and_pow_two_sub_one_eq_mod _ 8, ?_, verify_append_crc data h⟩
  unfold getLSB
  have hand : calculate data >>> 8 &&& 255 = (calculate data >>> 8) % 256 :=
    Nat.and_pow_two_sub_one_eq_mod _ 8
  have h8 : calculate data >>> 8 = calculate data / 256 := by
    rw [Nat.shiftRight_eq_div_pow]
  rw [hand, h8]
  omega

/-- Witness for C10 at the concrete two-byte input `A0 19`. -/
theorem crc_emission_little_endian_witness :
    getMSB [0xA0, 0x19] = calculate [0xA0, 0x19] % 256 ∧
    getLSB [0xA0, 0x19] = calculate [0xA0, 0x19] / 256 ∧
    verify ([0xA0, 0x19] ++ [getMSB [0xA0, 0x19], getLSB [0xA0, 0x19]]) = true :=
  crc_emission_little_endian [0xA0, 0x19] (by decide)

/-! ### Inbound tokeniser — `DLMSProtocol::receiveFrame` (DLMSProtocol.cpp 162-194)

The loop is modelled over the list of bytes the serial line delivers before
the deadline; an exhausted list is the timeout (`return false`, here `none`).
Each delivered byte is processed exactly as lines 171-187 of the source:
a flag byte sets `frameStarted` and resets `receiveLength` to 0; when
`frameStarted` holds and the buffer is below `MAX_FRAME_SIZE` the byte is
appended; the end-of-frame test then checks `receiveLength > 2`, the current
byte being a flag, and the buffer starting with a flag. -/

def HDLC_FLAG : Nat := 0x7E

def MAX_FRAME_SIZE : Nat := 256

def receiveLoop : List Nat → Bool → List Nat → Option (List Nat)
  | [], _, _ => none
  | b :: rest, frameStarted, buf =>
    let fs := if b == HDLC_FLAG then true else frameStarted
    let buf0 := if b == HDLC_FLAG then [] else buf
    if fs && decide (buf0.length < MAX_FRAME_SIZE) then
      let buf1 := buf0 ++ [b]
      if decide (2 < buf1.length) && (b == HDLC_FLAG) && (buf1.getD 0 0 == HDLC_FLAG) then
        some buf1
      else receiveLoop rest fs buf1
    else receiveLoop rest fs buf0

/-- `DLMSProtocol::receiveFrame`: starts with a cleared buffer and
`frameStarted = false`. -/
def receiveFrame (stream : List Nat) : Option (List Nat) := receiveLoop stream false []

lemma receiveLoop_eq_none (stream : List Nat) :
    ∀ fs buf, receiveLoop stream fs buf = none := by
  induction stream with
  | nil => intro fs buf; rfl
  | cons b rest ih =>
    intro fs buf
    by_cases hb : b == HDLC_FLAG
    · simp [receiveLoop, hb, MAX_FRAME_SIZE, ih]
    · simp [receiveLoop, hb, MAX_FRAME_SIZE, ih]

/-- C1: the end-of-frame test of `receiveFrame` is unreachable — every flag
byte first resets `receiveLength` to 0 (line 174-177), so when the closing
flag is examined the buffer holds exactly one byte and `receiveLength > 2`
fails.  `receiveFrame` therefore never returns a frame: for every inbound
byte stream, including one containing a complete flag-delimited HDLC frame,
it runs to the deadline and reports a timeout. -/
theorem receiveFrame_never_succeeds (stream : List Nat) : receiveFrame stream = none :=
  receiveLoop_eq_none stream false []

set_option maxRecDepth 8192 in
/-- Sanity: the canonical SNRM frame of the source (`SNRM_FRAME`, bytes 1..33
of the 34-byte constant) passes `verify`, confirming the CRC model against a
known-good vector. -/
lemma snrm_frame_fcs_valid :
    verify [0xA0, 0x20, 0x03, 0x41, 0x93, 0x28, 0xBC,
            0x81, 0x80, 0x14, 0x05, 0x02, 0x05, 0x01, 0x06,
            0x02, 0x05, 0x01, 0x07, 0x04, 0x00, 0x00, 0x00,
            0x01, 0x08, 0x04, 0x00, 0x00, 0x00, 0x01, 0xDD, 0x70] = true := by decide

/-! ### OBIS catalogue — `src/dlms/OBISCodes.cpp`

`OBISCode` mirrors the C++ class: six identifier bytes, a display name, an
engineering unit, and the interface-class id.  Only the catalogue entries that
`readMeterData` touches are reproduced here. -/

structure OBISCode where
  b0 : Nat
  b1 : Nat
  b2 : Nat
  b3 : Nat
  b4 : Nat
  b5 : Nat
  name : String
  unit : String
  classId : Nat
deriving DecidableEq, Inhabited

namespace OBISCodes

def METER_SERIAL_NUMBER : OBISCode := ⟨0x00, 0x00, 0x60, 0x01, 0x00, 0xFF, "Serial Number", "", 0x01⟩

def METER_MANUFACTURER : OBISCode := ⟨0x00, 0x00, 0x60, 0x01, 0x01, 0xFF, "Manufacturer", "", 0x01⟩

def KWH_IMPORT : OBISCode := ⟨0x01, 0x00, 0x01, 0x08, 0x00, 0xFF, "Active Energy Import", "kWh", 0x03⟩

def KWH_EXPORT : OBISCode := ⟨0x01, 0x00, 0x02, 0x08, 0x00, 0xFF, "Active Energy Export", "kWh", 0x03⟩

def KVAH_IMPORT : OBISCode := ⟨0x01, 0x00, 0x09, 0x08, 0x00, 0xFF, "Apparent Energy Import", "kVAh", 0x03⟩

def KVAH_EXPORT : OBISCode := ⟨0x01, 0x00, 0x10, 0x08, 0x00, 0xFF, "Apparent Energy Export", "kVAh", 0x03⟩

def KVARH_LAG : OBISCode := ⟨0x01, 0x00, 0x05, 0x08, 0x00, 0xFF, "Reactive Energy Lag", "kVArh", 0x03⟩

def KVARH_LEAD : OBISCode := ⟨0x01, 0x00, 0x08, 0x08, 0x00, 0xFF, "Reactive Energy Lead", "kVArh", 0x03⟩

def MD_KW_IMPORT : OBISCode := ⟨0x01, 0x00, 0x01, 0x06, 0x00, 0xFF, "MD Active Import", "kW", 0x04⟩

def MD_KVA_IMPORT : OBISCode := ⟨0x01, 0x00, 0x09, 0x06, 0x00, 0xFF, "MD Apparent Import", "kVA", 0x04⟩

def VOLTAGE_R : OBISCode := ⟨0x01, 0x00, 0x20, 0x07, 0x00, 0xFF, "Voltage Phase R", "V", 0x03⟩

def VOLTAGE_Y : OBISCode := ⟨0x01, 0x00, 0x34, 0x07, 0x00, 0xFF, "Voltage Phase Y", "V", 0x03⟩

def VOLTAGE_B : OBISCode := ⟨0x01, 0x00, 0x48, 0x07, 0x00, 0xFF, "Voltage Phase B", "V", 0x03⟩

def CURRENT_R : OBISCode := ⟨0x01, 0x00, 0x1F, 0x07, 0x00, 0xFF, "Current Phase R", "A", 0x03⟩

def CURRENT_Y : OBISCode := ⟨0x01, 0x00, 0x33, 0x07, 0x00, 0xFF, "Current Phase Y", "A", 0x03⟩

def CURRENT_B : OBISCode := ⟨0x01, 0x00, 0x47, 0x07, 0x00, 0xFF, "Current Phase B", "A", 0x03⟩

def POWER_FACTOR : OBISCode := ⟨0x01, 0x00, 0x0D, 0x07, 0x00, 0xFF, "Power Factor", "", 0x03⟩

def FREQUENCY : OBISCode := ⟨0x01, 0x00, 0x0E, 0x07, 0x00, 0xFF, "Frequency", "Hz", 0x03⟩

/-- `KWH_IMPORT_RATE[8]` (only the first four entries are read). -/
def KWH_IMPORT_RATE : List OBISCode :=
  [⟨0x01, 0x00, 0x01, 0x08, 0x01, 0xFF, "kWh Import Rate 1", "kWh", 0x03⟩,
   ⟨0x01, 0x00, 0x01, 0x08, 0x02, 0xFF, "kWh Import Rate 2", "kWh", 0x03⟩,
   ⟨0x01, 0x00, 0x01, 0x08, 0x03, 0xFF, "kWh Import Rate 3", "kWh", 0x03⟩,
   ⟨0x01, 0x00, 0x01, 0x08, 0x04, 0xFF, "kWh Import Rate 4", "kWh", 0x03⟩,
   ⟨0x01, 0x00, 0x01, 0x08, 0x05, 0xFF, "kWh Import Rate 5", "kWh", 0x03⟩,
   ⟨0x01, 0x00, 0x01, 0x08, 0x06, 0xFF, "kWh Import Rate 6", "kWh", 0x03⟩,
   ⟨0x01, 0x00, 0x01, 0x08, 0x07, 0xFF, "kWh Import Rate 7", "kWh", 0x03⟩,
   ⟨0x01, 0x00, 0x01, 0x08, 0x08, 0xFF, "kWh Import Rate 8", "kWh", 0x03⟩]

/-- `KVAH_IMPORT_RATE[8]` (only the first four entries are read). -/
def KVAH_IMPORT_RATE : List OBISCode :=
  [⟨0x01, 0x00, 0x09, 0x08, 0x01, 0xFF, "kVAh Import Rate 1", "kVAh", 0x03⟩,
   ⟨0x01, 0x00, 0x09, 0x08, 0x02, 0xFF, "kVAh Import Rate 2", "kVAh", 0x03⟩,
   ⟨0x01, 0x00, 0x09, 0x08, 0x03, 0xFF, "kVAh Import Rate 3", "kVAh", 0x03⟩,
   ⟨0x01, 0x00, 0x09, 0x08, 0x04, 0xFF, "kVAh Import Rate 4", "kVAh", 0x03⟩,
   ⟨0x01, 0x00, 0x09, 0x08, 0x05, 0xFF, "kVAh Import Rate 5", "kVAh", 0x03⟩,
   ⟨0x01, 0x00, 0x09, 0x08, 0x06, 0xFF, "kVAh Import Rate 6", "kVAh", 0x03⟩,
   ⟨0x01, 0x00, 0x09, 0x08, 0x07, 0xFF, "kVAh Import Rate 7", "kVAh", 0x03⟩,
   ⟨0x01, 0x00, 0x09, 0x08, 0x08, 0xFF, "kVAh Import Rate 8", "kVAh", 0x03⟩]

end OBISCodes

/-! ### Outbound frame assembly — `DLMSProtocol::buildOBISFrame` (427-473)

The 27-byte request frame: `frame[0] = 0x7E`; `frame[1..5]` the header
`A0 19 03 41 <counter>`; `frame[6..7]` the HCS computed over `frame[1..5]`
and emitted `getMSB` then `getLSB`; `frame[8..22]` LLC + GET APDU; `frame[23]`
the selector `0x00`; `frame[24..25]` the FCS computed over `frame[1..23]`
(`fcsData`, 23 bytes) emitted `getMSB` then `getLSB`; `frame[26] = 0x7E`. -/

def obisFrameHeader (ctr : Nat) : List Nat := [0xA0, 0x19, 0x03, 0x41, ctr]

/-- Bytes 1..23 of the built frame: header, HCS pair, LLC `E6 E6 00`, APDU
`C0 01 C1 00 <classId> <OBIS:6> <attribute> 00`. -/
def obisFrameBody (obis : OBISCode) (classId attr ctr : Nat) : List Nat :=
  obisFrameHeader ctr ++ [getMSB (obisFrameHeader ctr), getLSB (obisFrameHeader ctr)] ++
    [0xE6, 0xE6, 0x00, 0xC0, 0x01, 0xC1, 0x00, classId,
     obis.b0, obis.b1, obis.b2, obis.b3, obis.b4, obis.b5, attr, 0x00]

def buildOBISFrame (obis : OBISCode) (classId attr ctr : Nat) : List Nat :=
  0x7E :: (obisFrameBody obis classId attr ctr ++
    [getMSB (obisFrameBody obis classId attr ctr),
     getLSB (obisFrameBody obis classId attr ctr), 0x7E])

lemma getMSB_lt (l : List Nat) : getMSB l < 256 := by
  unfold getMSB
  have h : calculate l &&& 255 = calculate l % 256 :=
    Nat.and_pow_two_sub_one_eq_mod (calculate l) 8
  omega

lemma getLSB_lt (l : List Nat) : getLSB l < 256 := by
  unfold getLSB
  have h : calculate l >>> 8 &&& 255 = (calculate l >>> 8) % 256 :=
    Nat.and_pow_two_sub_one_eq_mod (calculate l >>> 8) 8
  omega

/-- C3: every OBIS request frame produced by `buildOBISFrame` carries a
correct FCS: `verify` over frame bytes `1..25` (format field through the
trailing FCS pair) returns `true`, because the pair emitted via
`getMSB`/`getLSB` is the little-endian encoding of the CRC-16/X.25 of frame
bytes `1..23`. -/
theorem buildOBISFrame_crc_valid (obis : OBISCode) (classId attr ctr : Nat)
    (hb0 : obis.b0 < 256) (hb1 : obis.b1 < 256) (hb2 : obis.b2 < 256)
    (hb3 : obis.b3 < 256) (hb4 : obis.b4 < 256) (hb5 : obis.b5 < 256)
    (hcl : classId < 256) (hat : attr < 256) (hc : ctr < 256) :
    verify (((buildOBISFrame obis classId attr ctr).drop 1).take 25) = true := by
  have hdrop : (buildOBISFrame obis classId attr ctr).drop 1 =
      obisFrameBody obis classId attr ctr ++
        [getMSB (obisFrameBody obis classId attr ctr),
         getLSB (obisFrameBody obis classId attr ctr), 0x7E] := rfl
  have hsplit : ([getMSB (obisFrameBody obis classId attr ctr),
      getLSB (obisFrameBody obis classId attr ctr)] : List Nat) ++ [0x7E] =
      [getMSB (obisFrameBody obis classId attr ctr),
       getLSB (obisFrameBody obis classId attr ctr), 0x7E] := rfl
  have h25 : 25 = (obisFrameBody obis classId attr ctr ++
      [getMSB (obisFrameBody obis classId attr ctr),
       getLSB (obisFrameBody obis classId attr ctr)]).length := by
    simp [obisFrameBody, obisFrameHeader]
  have htake : ((buildOBISFrame obis classId attr ctr).drop 1).take 25 =
      obisFrameBody obis classId attr ctr ++
        [getMSB (obisFrameBody obis classId attr ctr),
         getLSB (obisFrameBody obis classId attr ctr)] := by
    rw [hdrop, ← hsplit, ← List.append_assoc, h25, List.take_left]
  rw [htake]
  apply verify_append_crc
  intro x hx
  have hm := getMSB_lt (obisFrameHeader ctr)
  have hl := getLSB_lt (obisFrameHeader ctr)
  simp [obisFrameHeader] at hm hl
  simp [obisFrameBody, obisFrameHeader] at hx
  omega

/-- Witness for C3: the frame requesting the value attribute of the active
energy import register at the initial frame counter. -/
theorem buildOBISFrame_crc_valid_witness :
    verify (((buildOBISFrame OBISCodes.KWH_IMPORT 0x03 0x02 0x10).drop 1).take 25) = true :=
  buildOBISFrame_crc_valid OBISCodes.KWH_IMPORT 0x03 0x02 0x10 (by decide) (by decide)
    (by decide) (by decide) (by decide) (by decide) (by decide) (by decide) (by decide)

/-! ### Response verification and data extraction — DLMSProtocol.cpp 248-267, 479-545 -/

/-- `DLMSProtocol::verifyOBISResponse` on the received buffer: length at least
15 and the fixed bytes at offsets 0, 1, 3, 4, 8, 9, 13, 14. -/
def verifyOBISResponse (buf : List Nat) : Bool :=
  if buf.length < 15 then false
  else
    buf.getD 0 0 == 0x7E && buf.getD 1 0 == 0xA0 && buf.getD 3 0 == 0x41 &&
    buf.getD 4 0 == 0x03 && buf.getD 8 0 == 0xE6 && buf.getD 9 0 == 0xE7 &&
    buf.getD 13 0 == 0xC1 && buf.getD 14 0 == 0x00

/-- `DLMSProtocol::extractValue` (479-501): the data-type tag sits at offset
15; tag `0x06` reads a big-endian 32-bit value from offsets 16..19; tags
`0x12` and `0x10` BOTH read a big-endian 16-bit value from offsets 16..17 as
UNSIGNED (`uint16_t temp`); any other tag fails.  The C `float` result is
modelled as an exact rational. -/
def extractValue (buf : List Nat) : Option ℚ :=
  if buf.length < 20 then none
  else
    let dataType := buf.getD 15 0
    if dataType == 0x06 then
      some (((buf.getD 16 0 <<< 24) ||| (buf.getD 17 0 <<< 16) ||| (buf.getD 18 0 <<< 8) |||
        buf.getD 19 0 : Nat) : ℚ)
    else if dataType == 0x12 || dataType == 0x10 then
      some (((buf.getD 16 0 <<< 8) ||| buf.getD 17 0 : Nat) : ℚ)
    else none

/-- `DLMSProtocol::extractString` (503-518): tags `0x09`/`0x0A`, one-byte
length at offset 16, characters from offset 17 bounded by the buffer length. -/
def extractString (buf : List Nat) : Option String :=
  if buf.length < 18 then none
  else
    let dataType := buf.getD 15 0
    if dataType == 0x09 || dataType == 0x0A then
      some (String.mk (((buf.drop 17).take (buf.getD 16 0)).map Char.ofNat))
    else none

/-- Two-digit zero-padded rendering, as `sprintf("%02u")`. -/
def fmt2 (n : Nat) : String := (if n < 10 then "0" else "") ++ toString n

/-- Four-digit zero-padded rendering, as `sprintf("%04u")`. -/
def fmt4 (n : Nat) : String :=
  (if n < 10 then "000" else if n < 100 then "00" else if n < 1000 then "0" else "") ++
    toString n

/-- `DLMSProtocol::extractDateTime` (520-545): requires a buffer of at least
30 bytes; reads year (big-endian 16-bit) at offsets 17..18 and
month/day/hour/minute/second at offsets 19..23; normalises the
"not specified" markers (`0xFFFF` year to 0, `0xFF` month and day to **1**,
`0xFF` hour/minute/second to 0) and renders
`%04u-%02u-%02u %02u:%02u:%02u`. -/
def extractDateTime (buf : List Nat) : Option String :=
  if buf.length < 30 then none
  else
    let year0 := (buf.getD 17 0 <<< 8) ||| buf.getD 18 0
    let month0 := buf.getD 19 0
    let day0 := buf.getD 20 0
    let hour0 := buf.getD 21 0
    let minute0 := buf.getD 22 0
    let second0 := buf.getD 23 0
    let year := if year0 == 0xFFFF then 0 else year0
    let month := if month0 == 0xFF then 1 else month0
    let day := if day0 == 0xFF then 1 else day0
    let hour := if hour0 == 0xFF then 0 else hour0
    let minute := if minute0 == 0xFF then 0 else minute0
    let second := if second0 == 0xFF then 0 else second0
    some (fmt4 year ++ "-" ++ fmt2 month ++ "-" ++ fmt2 day ++ " " ++
          fmt2 hour ++ ":" ++ fmt2 minute ++ ":" ++ fmt2 second)

/-- Conversion of a C `int` to `int8_t` (two's-complement wrap into
`[-128, 127]`), modelling the assignment `int8_t scaler = ~receiveBuffer[18]`
where `~b` on the promoted `int` equals `-b - 1`. -/
def toInt8 (x : Int) : Int :=
  let r := x % 256
  if 128 ≤ r then r - 256 else r

/-- The scaler application of `readOBIS` (369-375): with
`b = receiveBuffer[18]`, when `receiveLength > 18` and `b > 127` the code sets
`int8_t scaler = ~b` and computes `value / pow(10, scaler + 1)`; when
`receiveLength > 18` and `b ≤ 127` it computes `value * pow(10, b)`; otherwise
the value is left unchanged. -/
def applyScaler (buf : List Nat) (value : ℚ) : ℚ :=
  if 18 < buf.length ∧ 127 < buf.getD 18 0 then
    value / (10 : ℚ) ^ (toInt8 (-(buf.getD 18 0 : Int) - 1) + 1)
  else if 18 < buf.length then
    value * (10 : ℚ) ^ (buf.getD 18 0)
  else value

/-- The two's-complement signed-8-bit reading of a byte — the interpretation
the spec assigns to the scaler byte. -/
def int8OfByte (b : Nat) : Int := if b ≤ 127 then (b : Int) else (b : Int) - 256

/-- C4: for every scaler byte `b` at offset 18 of a long-enough response, the
value produced by the code equals `raw * 10 ^ s` in exact rational arithmetic,
where `s` is the two's-complement signed-8-bit reading of `b`: `10 ^ b` for
`b ≤ 127`, and `10 ^ (b - 256)` for `b > 127` — the bit-complement
formulation `value / pow(10, (int8_t)(~b) + 1)` computes exactly that. -/
theorem applyScaler_signed_exponent (buf : List Nat) (v : ℚ)
    (h18 : 18 < buf.length) (hb : buf.getD 18 0 < 256) :
    applyScaler buf v = v * (10 : ℚ) ^ (int8OfByte (buf.getD 18 0)) := by
  by_cases hbig : 127 < buf.getD 18 0
  · unfold applyScaler
    rw [if_pos ⟨h18, hbig⟩]
    have hr : (-(buf.getD 18 0 : Int) - 1) % 256 = 255 - (buf.getD 18 0 : Int) := by omega
    have ht : toInt8 (-(buf.getD 18 0 : Int) - 1) = 255 - (buf.getD 18 0 : Int) := by
      unfold toInt8
      rw [hr, if_neg (by omega)]
    have hio : int8OfByte (buf.getD 18 0) = (buf.getD 18 0 : Int) - 256 := by
      unfold int8OfByte
      rw [if_neg (by omega)]
    rw [div_eq_mul_inv]
    congr 1
    rw [ht, hio, ← zpow_neg]
    congr 1
    omega
  · unfold applyScaler
    rw [if_neg (fun hcon => hbig hcon.2), if_pos h18]
    have hio : int8OfByte (buf.getD 18 0) = (buf.getD 18 0 : Int) := by
      unfold int8OfByte
      rw [if_pos (by omega)]
    rw [hio, zpow_natCast]

/-- Witness for C4: scaler byte `0xFF` (signed value −1) applied to raw
value 5500 (the spec's MD example). -/
theorem applyScaler_signed_exponent_witness :
    applyScaler [0, 0, 0, 0, 0, 0, 0, 0, 0, 0, 0, 0, 0, 0, 0, 0x02, 0x02, 0x0F, 0xFF]
        5500 =
      5500 * (10 : ℚ) ^ (int8OfByte 0xFF) := by
  have h := applyScaler_signed_exponent
    [0, 0, 0, 0, 0, 0, 0, 0, 0, 0, 0, 0, 0, 0, 0, 0x02, 0x02, 0x0F, 0xFF] 5500
    (by decide) (by decide)
  simpa using h

/-- A 20-byte GET response carrying a `long` (tag `0x10`) with the given
two payload bytes at offsets 16..17. -/
def i16Response (payload : List Nat) : List Nat :=
  [0x7E, 0xA0, 0x2A, 0x41, 0x03, 0x00, 0x00, 0x00, 0xE6, 0xE7, 0x00, 0x00, 0x00,
   0xC1, 0x00, 0x10] ++ payload ++ [0x00, 0x00]

/-- Big-endian two's-complement encoding of a `long` (i16) value, following
the spec's round-trip property `decode(encode(v)) = v`. -/
def encodeLongBE (v : Int) : List Nat :=
  [((v % 65536) / 256).toNat, ((v % 65536) % 256).toNat]

/-- C8 counterexample: the encoding of −1 (payload `FF FF`, tag `0x10`)
decodes to 65535, not −1 — `extractValue` reads tag `0x10` through the same
unsigned 16-bit path as tag `0x12`. -/
theorem extractValue_long_negative_cex :
    extractValue (i16Response [0xFF, 0xFF]) = some 65535 ∧ ((65535 : ℚ) ≠ -1) := by
  constructor
  · have hval : (255 <<< 8 ||| 255 : Nat) = 65535 := by decide
    norm_num [extractValue, i16Response]
    rw [hval]
    norm_num
  · norm_num

/-- C8 as amended: decoding the tag-`0x10` encoding of `v ∈ [-32768, 32767]`
yields `v` when `v ≥ 0` and `v + 65536` when `v < 0` (the unsigned reading of
the two's-complement payload), rather than `v` itself. -/
theorem extractValue_long_unsigned (v : Int) (h1 : -32768 ≤ v) (h2 : v ≤ 32767) :
    extractValue (i16Response (encodeLongBE v)) =
      some (if 0 ≤ v then (v : ℚ) else (v : ℚ) + 65536) := by
  simp only [extractValue, i16Response, encodeLongBE]
  norm_num
  rw [Nat.shiftLeft_eq]
  rw [show (2 : Nat) ^ 8 = 256 from by norm_num]
  rw [mul256_lor _ _ (by omega : (v % 256).toNat < 256)]
  have hcomb : (v % 65536 / 256).toNat * 256 + (v % 256).toNat = (v % 65536).toNat := by
    omega
  rw [hcomb]
  rcases le_or_lt 0 v with hv | hv
  · rw [if_pos hv]
    have hmod : ((v % 65536).toNat : ℤ) = v := by omega
    exact_mod_cast congrArg (fun z : ℤ => (z : ℚ)) hmod
  · rw [if_neg (not_le.mpr hv)]
    have hmod : ((v % 65536).toNat : ℤ) = v + 65536 := by omega
    have hq := congrArg (fun z : ℤ => (z : ℚ)) hmod
    push_cast at hq
    exact_mod_cast hq

/-- Witness for C8 (amended) at `v = -1`. -/
theorem extractValue_long_unsigned_witness :
    extractValue (i16Response (encodeLongBE (-1))) =
      some (if 0 ≤ (-1 : Int) then ((-1 : Int) : ℚ) else ((-1 : Int) : ℚ) + 65536) :=
  extractValue_long_unsigned (-1) (by decide) (by decide)

/-- A 30-byte capture-time response whose datetime field (offsets 17..23) is
entirely "not specified": year `FF FF`, month/day/hour/minute/second `FF`. -/
def dtUnspecifiedResponse : List Nat :=
  [0x7E, 0xA0, 0x2A, 0x41, 0x03, 0x00, 0x00, 0x00, 0xE6, 0xE7, 0x00, 0x00, 0x00,
   0xC1, 0x00, 0x19, 0x0C, 0xFF, 0xFF, 0xFF, 0xFF, 0xFF, 0xFF, 0xFF, 0x00, 0x00,
   0x80, 0x00, 0xFF, 0x00]

/-- C9 counterexample: on an all-unspecified capture time the code renders
`"0000-01-01 00:00:00"` — month and day are normalised to 1, not to 0 as the
claim states (which would render `"0000-00-00 00:00:00"`). -/
theorem extractDateTime_unspecified_cex :
    extractDateTime dtUnspecifiedResponse = some "0000-01-01 00:00:00" ∧
    some "0000-01-01 00:00:00" ≠ some "0000-00-00 00:00:00" := by
  constructor
  · decide
  · decide

/-- C9 as amended: an unspecified year (`0xFFFF`) and unspecified hour,
minute, second (`0xFF`) are normalised to 0, but an unspecified month or day
(`0xFF`) is normalised to 1, whatever the surrounding bytes. -/
theorem extractDateTime_unspecified_markers (p rest : List Nat)
    (hp : p.length = 17) (hr : rest.length = 6) :
    extractDateTime (p ++ ([0xFF, 0xFF, 0xFF, 0xFF, 0xFF, 0xFF, 0xFF] ++ rest)) =
      some "0000-01-01 00:00:00" := by
  have hg : ∀ i : Nat, 17 ≤ i → i ≤ 23 →
      (p ++ ([0xFF, 0xFF, 0xFF, 0xFF, 0xFF, 0xFF, 0xFF] ++ rest)).getD i 0 = 0xFF := by
    intro i hi1 hi2
    rw [List.getD_append_right _ _ 0 _ (by omega), hp]
    interval_cases i <;> rfl
  have hlen : (p ++ ([0xFF, 0xFF, 0xFF, 0xFF, 0xFF, 0xFF, 0xFF] ++ rest)).length = 30 := by
    simp [hp, hr]
  unfold extractDateTime
  rw [hlen, hg 17 (by omega) (by omega), hg 18 (by omega) (by omega),
    hg 19 (by omega) (by omega), hg 20 (by omega) (by omega), hg 21 (by omega) (by omega),
    hg 22 (by omega) (by omega), hg 23 (by omega) (by omega)]
  decide

/-- Witness for C9 (amended) with zero prefix and suffix bytes. -/
theorem extractDateTime_unspecified_markers_witness :
    extractDateTime (List.replicate 17 0 ++
        ([0xFF, 0xFF, 0xFF, 0xFF, 0xFF, 0xFF, 0xFF] ++ List.replicate 6 0)) =
      some "0000-01-01 00:00:00" :=
  extractDateTime_unspecified_markers (List.replicate 17 0) (List.replicate 6 0)
    (by decide) (by decide)

/-! ### GET transaction — `DLMSProtocol::readOBIS` / `readOBISString` (332-421)

`sendFrame` (152-160) unconditionally returns true (it writes to the UART and
logs), so only the receive and verification results govern control flow.  The
serial line is an oracle list `rx`: each `receiveFrame()` call inside the
transaction consumes the head entry (`none` = timeout, `some buf` = the bytes
left in `receiveBuffer`).  The C++ out-parameters `value` / `timestamp`, the
returned `bool`, the mutated `hdlcFrameCounter`, and the unconsumed oracle
form the result record. -/

/-- `DLMSProtocol::incrementFrameCounter` (551-557). -/
def incrementFrameCounter (c : Nat) : Nat := if c < 0xFE then c + 0x22 else 0x10

structure OBISReadResult where
  ok : Bool
  value : ℚ
  timestamp : String
  counter : Nat
  rx : List (Option (List Nat))
deriving DecidableEq

/-- `DLMSProtocol::readOBIS` (332-396).  Step 1 reads attribute `0x01`
(class check), step 2 attribute `0x02` (value, via `extractValue`); a failure
of either returns false at once, before `incrementFrameCounter`.  Step 3
(attribute `0x03`, scaler) runs only for `classId == 0x03` and step 4
(attribute `0x05`, capture time) only for `classId == 0x04`; in both of those
steps `incrementFrameCounter` runs and the oracle entry is consumed whether or
not the exchange succeeded, because the increment sits outside the `if`. -/
def readOBIS (obis : OBISCode) (counter : Nat) (rx : List (Option (List Nat))) :
    OBISReadResult :=
  match rx.headD none with
  | none => ⟨false, 0, "", counter, rx.tail⟩
  | some b1 =>
    if !verifyOBISResponse b1 then ⟨false, 0, "", counter, rx.tail⟩
    else
      let c1 := incrementFrameCounter counter
      match rx.tail.headD none with
      | none => ⟨false, 0, "", c1, rx.tail.tail⟩
      | some b2 =>
        if !verifyOBISResponse b2 then ⟨false, 0, "", c1, rx.tail.tail⟩
        else
          match extractValue b2 with
          | none => ⟨false, 0, "", c1, rx.tail.tail⟩
          | some v =>
            let c2 := incrementFrameCounter c1
            let rx2 := rx.tail.tail
            let v3 := if obis.classId == 0x03 then
                match rx2.headD none with
                | none => v
                | some b3 => if verifyOBISResponse b3 then applyScaler b3 v else v
              else v
            let c3 := if obis.classId == 0x03 then incrementFrameCounter c2 else c2
            let rx3 := if obis.classId == 0x03 then rx2.tail else rx2
            let ts4 := if obis.classId == 0x04 then
                match rx3.headD none with
                | none => ""
                | some b4 =>
                  if verifyOBISResponse b4 then (extractDateTime b4).getD "" else ""
              else ""
            let c4 := if obis.classId == 0x04 then incrementFrameCounter c3 else c3
            let rx4 := if obis.classId == 0x04 then rx3.tail else rx3
            ⟨true, v3, ts4, c4, rx4⟩

structure StringReadResult where
  ok : Bool
  value : String
  counter : Nat
  rx : List (Option (List Nat))
deriving DecidableEq

/-- `DLMSProtocol::readOBISString` (398-421): a single attribute-`0x02`
exchange decoded by `extractString`; the counter advances only after the
response verified and the string extracted. -/
def readOBISString (_obis : OBISCode) (counter : Nat) (rx : List (Option (List Nat))) :
    StringReadResult :=
  match rx.headD none with
  | none => ⟨false, "", counter, rx.tail⟩
  | some b =>
    if !verifyOBISResponse b then ⟨false, "", counter, rx.tail⟩
    else
      match extractString b with
      | none => ⟨false, "", counter, rx.tail⟩
      | some s => ⟨true, s, incrementFrameCounter counter, rx.tail⟩

/-- A minimal response accepted by `verifyOBISResponse`, carrying tag `0x06`
with payload `00 00 4E 20` (raw value 20000). -/
def okValueResponse : List Nat :=
  [0x7E, 0xA0, 0x2A, 0x41, 0x03, 0x00, 0x00, 0x00, 0xE6, 0xE7, 0x00, 0x00, 0x00,
   0xC1, 0x00, 0x06, 0x00, 0x00, 0x4E, 0x20]

/-- C2 counterexample: reading a class-3 register (`KWH_IMPORT`) starting at
counter `0x10`, the class and value steps succeed (counter `0x54` before the
scaler step) and the scaler-step receive then times out.  The claim requires
the counter to stay `0x54`; `readOBIS` advances it to `0x76`. -/
theorem readOBIS_counter_advance_on_failure_cex :
    (readOBIS OBISCodes.KWH_IMPORT 0x10
        [some okValueResponse, some okValueResponse, none]).counter = 0x76 ∧
    (readOBIS OBISCodes.KWH_IMPORT 0x10
        [some okValueResponse, some okValueResponse, none]).counter ≠ 0x54 := by
  constructor
  · decide
  · decide

/-- C2 as amended: the class-check and value steps leave the counter
unchanged when they fail (so a retry would target the same sequence number),
and so does a failed `readOBISString` read; but the scaler step (class 3) and
the capture-time step (class 4) advance the counter by `incrementFrameCounter`
regardless of whether their receive succeeds. -/
theorem readOBIS_counter_discipline (obis : OBISCode) (c : Nat) (b1 b2 : List Nat)
    (rest : List (Option (List Nat)))
    (h1 : verifyOBISResponse b1 = true) (h2 : verifyOBISResponse b2 = true)
    (v : ℚ) (hv : extractValue b2 = some v) :
    (readOBIS obis c (none :: rest)).counter = c ∧
    (readOBIS obis c (some b1 :: none :: rest)).counter = incrementFrameCounter c ∧
    (readOBISString obis c (none :: rest)).counter = c ∧
    (obis.classId = 0x03 →
      (readOBIS obis c (some b1 :: some b2 :: none :: rest)).counter =
        incrementFrameCounter (incrementFrameCounter (incrementFrameCounter c))) ∧
    (obis.classId = 0x04 →
      (readOBIS obis c (some b1 :: some b2 :: none :: rest)).counter =
        incrementFrameCounter (incrementFrameCounter (incrementFrameCounter c))) := by
  refine ⟨?_, ?_, ?_, ?_, ?_⟩
  · simp [readOBIS]
  · simp [readOBIS, h1]
  · simp [readOBISString]
  · intro hcl
    simp [readOBIS, h1, h2, hv, hcl]
  · intro hcl
    simp [readOBIS, h1, h2, hv, hcl]

/-- Witness for C2 (amended) on `KWH_IMPORT` at counter `0x10`. -/
theorem readOBIS_counter_discipline_witness :
    (readOBIS OBISCodes.KWH_IMPORT 0x10 (none :: [])).counter = 0x10 ∧
    (readOBIS OBISCodes.KWH_IMPORT 0x10
        (some okValueResponse :: none :: [])).counter = incrementFrameCounter 0x10 ∧
    (readOBISString OBISCodes.KWH_IMPORT 0x10 (none :: [])).counter = 0x10 ∧
    (OBISCodes.KWH_IMPORT.classId = 0x03 →
      (readOBIS OBISCodes.KWH_IMPORT 0x10
          (some okValueResponse :: some okValueResponse :: none :: [])).counter =
        incrementFrameCounter (incrementFrameCounter (incrementFrameCounter 0x10))) ∧
    (OBISCodes.KWH_IMPORT.classId = 0x04 →
      (readOBIS OBISCodes.KWH_IMPORT 0x10
          (some okValueResponse :: some okValueResponse :: none :: [])).counter =
        incrementFrameCounter (incrementFrameCounter (incrementFrameCounter 0x10))) :=
  readOBIS_counter_discipline OBISCodes.KWH_IMPORT 0x10 okValueResponse okValueResponse []
    (by decide) (by decide) 20000 (by decide)

/-- C5 counterexample: the value-step receive times out once; oracle entries
that a retry would consume are still pending, but `readOBIS` aborts at once
and leaves them unread — no retry happens on timeout. -/
theorem readOBIS_no_retry_cex :
    (readOBIS OBISCodes.KWH_IMPORT 0x10
        [some okValueResponse, none, some okValueResponse, some okValueResponse]).ok
      = false ∧
    (readOBIS OBISCodes.KWH_IMPORT 0x10
        [some okValueResponse, none, some okValueResponse, some okValueResponse]).rx =
      [some okValueResponse, some okValueResponse] := by
  constructor
  · decide
  · decide

/-- C5 as amended: `readOBIS` contains no retry loop — a single receive
timeout on the class-check or value step aborts the whole transaction
immediately, whatever the line would deliver next (`MAX_RETRY_COUNT = 3` is
defined in config.h but referenced nowhere). -/
theorem readOBIS_aborts_on_first_failure (obis : OBISCode) (c : Nat) (b1 : List Nat)
    (rest : List (Option (List Nat))) (h1 : verifyOBISResponse b1 = true) :
    (readOBIS obis c (none :: rest)).ok = false ∧
    (readOBIS obis c (some b1 :: none :: rest)).ok = false := by
  constructor
  · simp [readOBIS]
  · simp [readOBIS, h1]

/-- Witness for C5 (amended). -/
theorem readOBIS_aborts_on_first_failure_witness :
    (readOBIS OBISCodes.KWH_IMPORT 0x10 (none :: [])).ok = false ∧
    (readOBIS OBISCodes.KWH_IMPORT 0x10
        (some okValueResponse :: none :: [])).ok = false :=
  readOBIS_aborts_on_first_failure OBISCodes.KWH_IMPORT 0x10 okValueResponse [] (by decide)

/-- A value response carrying tag `0x06` with payload `00 00 15 7C`
(raw value 5500). -/
def mdValueResponse : List Nat :=
  [0x7E, 0xA0, 0x2A, 0x41, 0x03, 0x00, 0x00, 0x00, 0xE6, 0xE7, 0x00, 0x00, 0x00,
   0xC1, 0x00, 0x06, 0x00, 0x00, 0x15, 0x7C]

/-- A scaler/unit response: structure of two elements, scaler byte `0xFF`
(signed −1) at offset 18. -/
def scalerResponse : List Nat :=
  [0x7E, 0xA0, 0x2A, 0x41, 0x03, 0x00, 0x00, 0x00, 0xE6, 0xE7, 0x00, 0x00, 0x00,
   0xC1, 0x00, 0x02, 0x02, 0x0F, 0xFF, 0x16, 0x1B]

/-- C6 counterexample: a class-4 maximum-demand read (`MD_KW_IMPORT`) whose
value decodes to 5500 while a scaler −1 response is available on the line.
The claim requires the scaler read to run for class 4 and yield 550.0;
`readOBIS` never issues a scaler read for class 4 (the branch tests
`classId == 0x03` only) and records the raw 5500, the scaler response being
swallowed by the capture-time step. -/
theorem readOBIS_class4_skips_scaler_cex :
    (readOBIS OBISCodes.MD_KW_IMPORT 0x10
        [some okValueResponse, some mdValueResponse, some scalerResponse]).value = 5500 ∧
    ((5500 : ℚ) ≠ 550) := by
  constructor
  · decide
  · decide

/-- C6 as amended: the scaler read and application happen only for interface
class 3; for a class-4 entry `readOBIS` performs the class-check, value, and
capture-time steps and records the decoded raw value unscaled, whatever else
the line delivers. -/
theorem readOBIS_class4_raw_value (obis : OBISCode) (c : Nat) (b1 b2 : List Nat)
    (rest : List (Option (List Nat))) (hcl : obis.classId = 0x04)
    (h1 : verifyOBISResponse b1 = true) (h2 : verifyOBISResponse b2 = true)
    (v : ℚ) (hv : extractValue b2 = some v) :
    (readOBIS obis c (some b1 :: some b2 :: rest)).ok = true ∧
    (readOBIS obis c (some b1 :: some b2 :: rest)).value = v := by
  constructor
  · simp [readOBIS, h1, h2, hv, hcl]
  · simp [readOBIS, h1, h2, hv, hcl]

/-- Witness for C6 (amended) on `MD_KW_IMPORT` with raw value 5500. -/
theorem readOBIS_class4_raw_value_witness :
    (readOBIS OBISCodes.MD_KW_IMPORT 0x10
        (some okValueResponse :: some mdValueResponse :: [some scalerResponse])).ok
      = true ∧
    (readOBIS OBISCodes.MD_KW_IMPORT 0x10
        (some okValueResponse :: some mdValueResponse :: [some scalerResponse])).value
      = 5500 := by
  have h := readOBIS_class4_raw_value OBISCodes.MD_KW_IMPORT 0x10
    okValueResponse mdValueResponse [some scalerResponse]
    (by decide) (by decide) (by decide) 5500 (by decide)
  simpa using h

/-! ### Reading assembler — `MeterData` (src/data/MeterData.cpp) and
`DLMSProtocol::readMeterData` (273-330) -/

structure MDRecord where
  value : ℚ := 0
  timestamp : String := ""
deriving DecidableEq

structure TODZone where
  kwh : ℚ := 0
  kvah : ℚ := 0
  kwhTimestamp : String := ""
  kvahTimestamp : String := ""
deriving DecidableEq

/-- The fields of `MeterData` that `readMeterData` touches; the defaults are
the cleared values set by `MeterData::clear`. -/
structure MeterData where
  serialNumber : String := ""
  manufacturer : String := ""
  kwhImport : ℚ := 0
  kvahImport : ℚ := 0
  kwhExport : ℚ := 0
  kvahExport : ℚ := 0
  kvarhLag : ℚ := 0
  kvarhLead : ℚ := 0
  mdKWImport : MDRecord := {}
  mdKVAImport : MDRecord := {}
  voltageR : ℚ := 0
  voltageY : ℚ := 0
  voltageB : ℚ := 0
  currentR : ℚ := 0
  currentY : ℚ := 0
  currentB : ℚ := 0
  powerFactor : ℚ := 0
  frequency : ℚ := 0
  todZones : List TODZone := []
  lastReadTimestamp : String := ""
  dataValid : Bool := false
deriving DecidableEq

/-- `MeterData::isValid` (51-55): `dataValid && !serialNumber.isEmpty() &&
(kwhImport > 0 || kvahImport > 0)`. -/
def MeterData.isValid (d : MeterData) : Bool :=
  d.dataValid && !d.serialNumber.isEmpty &&
    (decide (d.kwhImport > 0) || decide (d.kvahImport > 0))

/-- `DLMSProtocol::readMeterData` (273-330): clears the draft, reads the
serial and manufacturer strings (each failure clears `success`), then the six
cumulative registers, two MD registers, eight instantaneous registers, and
the first four TOD zones, ignoring those calls' return codes, stamps the
hard-coded timestamp, sets `dataValid = true` unconditionally, and returns
`success`.  Result: `(success, populated record, final frame counter)`. -/
def readMeterData (counter : Nat) (rx : List (Option (List Nat))) :
    Bool × MeterData × Nat :=
  let rSer := readOBISString OBISCodes.METER_SERIAL_NUMBER counter rx
  let rMan := readOBISString OBISCodes.METER_MANUFACTURER rSer.counter rSer.rx
  let success := rSer.ok && rMan.ok
  let r1 := readOBIS OBISCodes.KWH_IMPORT rMan.counter rMan.rx
  let r2 := readOBIS OBISCodes.KVAH_IMPORT r1.counter r1.rx
  let r3 := readOBIS OBISCodes.KWH_EXPORT r2.counter r2.rx
  let r4 := readOBIS OBISCodes.KVAH_EXPORT r3.counter r3.rx
  let r5 := readOBIS OBISCodes.KVARH_LAG r4.counter r4.rx
  let r6 := readOBIS OBISCodes.KVARH_LEAD r5.counter r5.rx
  let r7 := readOBIS OBISCodes.MD_KW_IMPORT r6.counter r6.rx
  let r8 := readOBIS OBISCodes.MD_KVA_IMPORT r7.counter r7.rx
  let r9 := readOBIS OBISCodes.VOLTAGE_R r8.counter r8.rx
  let r10 := readOBIS OBISCodes.VOLTAGE_Y r9.counter r9.rx
  let r11 := readOBIS OBISCodes.VOLTAGE_B r10.counter r10.rx
  let r12 := readOBIS OBISCodes.CURRENT_R r11.counter r11.rx
  let r13 := readOBIS OBISCodes.CURRENT_Y r12.counter r12.rx
  let r14 := readOBIS OBISCodes.CURRENT_B r13.counter r13.rx
  let r15 := readOBIS OBISCodes.POWER_FACTOR r14.counter r14.rx
  let r16 := readOBIS OBISCodes.FREQUENCY r15.counter r15.rx
  let t10 := readOBIS (OBISCodes.KWH_IMPORT_RATE.getD 0 default) r16.counter r16.rx
  let t11 := readOBIS (OBISCodes.KVAH_IMPORT_RATE.getD 0 default) t10.counter t10.rx
  let t20 := readOBIS (OBISCodes.KWH_IMPORT_RATE.getD 1 default) t11.counter t11.rx
  let t21 := readOBIS (OBISCodes.KVAH_IMPORT_RATE.getD 1 default) t20.counter t20.rx
  let t30 := readOBIS (OBISCodes.KWH_IMPORT_RATE.getD 2 default) t21.counter t21.rx
  let t31 := readOBIS (OBISCodes.KVAH_IMPORT_RATE.getD 2 default) t30.counter t30.rx
  let t40 := readOBIS (OBISCodes.KWH_IMPORT_RATE.getD 3 default) t31.counter t31.rx
  let t41 := readOBIS (OBISCodes.KVAH_IMPORT_RATE.getD 3 default) t40.counter t40.rx
  (success,
   { serialNumber := rSer.value
     manufacturer := rMan.value
     kwhImport := r1.value
     kvahImport := r2.value
     kwhExport := r3.value
     kvahExport := r4.value
     kvarhLag := r5.value
     kvarhLead := r6.value
     mdKWImport := ⟨r7.value, r7.timestamp⟩
     mdKVAImport := ⟨r8.value, r8.timestamp⟩
     voltageR := r9.value
     voltageY := r10.value
     voltageB := r11.value
     currentR := r12.value
     currentY := r13.value
     currentB := r14.value
     powerFactor := r15.value
     frequency := r16.value
     todZones := [⟨t10.value, t11.value, t10.timestamp, t11.timestamp⟩,
                  ⟨t20.value, t21.value, t20.timestamp, t21.timestamp⟩,
                  ⟨t30.value, t31.value, t30.timestamp, t31.timestamp⟩,
                  ⟨t40.value, t41.value, t40.timestamp, t41.timestamp⟩,
                  {}, {}, {}, {}]
     lastReadTimestamp := "2025-10-02 12:00:00"
     dataValid := true },
   t41.counter)

/-- A response accepted by `verifyOBISResponse` carrying an octet string
`"M1"` (tag `0x09`, length 2). -/
def serialResponse : List Nat :=
  [0x7E, 0xA0, 0x2A, 0x41, 0x03, 0x00, 0x00, 0x00, 0xE6, 0xE7, 0x00, 0x00, 0x00,
   0xC1, 0x00, 0x09, 0x02, 0x4D, 0x31, 0x00]

/-- C7 counterexample: the serial read succeeds (`"M1"`), the manufacturer
read times out so the identification round fails (`readMeterData` returns
`false`), and the active-energy import register decodes to 20000; the
resulting record is nevertheless marked valid, because `dataValid` is set
unconditionally and `isValid` never looks at the manufacturer. -/
theorem readMeterData_valid_without_identification_cex :
    (readMeterData 0x10
        [some serialResponse, none, some okValueResponse, some okValueResponse]).1
      = false ∧
    (readMeterData 0x10
        [some serialResponse, none, some okValueResponse,
         some okValueResponse]).2.1.isValid = true := by
  constructor
  · decide
  · decide

/-- C7 as amended: `readMeterData` sets `dataValid = true` on every completed
cycle, so the returned record is marked valid iff its serial-number string is
nonempty and `kwhImport` or `kvahImport` is positive; a manufacturer-read
failure and the other four cumulative registers play no role in validity. -/
theorem readMeterData_validity (counter : Nat) (rx : List (Option (List Nat))) :
    (readMeterData counter rx).2.1.dataValid = true ∧
    (readMeterData counter rx).2.1.isValid =
      (!(readMeterData counter rx).2.1.serialNumber.isEmpty &&
        (decide ((readMeterData counter rx).2.1.kwhImport > 0) ||
         decide ((readMeterData counter rx).2.1.kvahImport > 0))) := by
  refine ⟨rfl, ?_⟩
  unfold MeterData.isValid
  rw [show (readMeterData counter rx).2.1.dataValid = true from rfl]
  rw [Bool.true_and]

end DLMS
